import Mathlib

/-!
Verification of the prover-assignment service (`src/lib.rs`, `src/assignment.rs`,
`src/status.rs`) against its natural-language specification.

Shallow embedding conventions:
* `u64` fields are modelled as `Nat`; the embedded code paths only compare these
  values (no wrapping arithmetic occurs in the source paths modelled here).
* `H160` / `H256` values are modelled as `Nat`; the source only ever asks
  `is_zero()` of them, which becomes `= 0`.
* The clock `Utc::now().timestamp_millis()` is passed in explicitly as
  `nowMillis : Nat`, so the handler becomes a pure function.
* The HTTP layer's `ApiError = (StatusCode, String)` becomes `Nat × String`,
  and the handler returns `Except ApiError ProposeBlockResponse`.
-/

namespace ProverApi

/-- `enum Tier` from `lib.rs` (closed enumeration, `repr(u8)`, five variants). -/
inductive Tier where
  | optimistic
  | sgx
  | pseZkevm
  | sgxAndPseZkevm
  | guardian
deriving DecidableEq, Repr

/-- `struct TierFee` from `assignment.rs`: a tier together with the offered fee. -/
structure TierFee where
  tier : Tier
  fee : Nat
deriving DecidableEq, Repr

/-- `struct CreateAssignmentRequestBody` from `assignment.rs`. -/
structure CreateAssignmentRequestBody where
  feeToken : Nat
  tierFees : List TierFee
  expiry : Nat
  txListHash : Nat
deriving DecidableEq, Repr

/-- The policy-relevant fields of `struct AppState` from `lib.rs` (the signing
key is omitted: no embedded code path reads it, signing being a TODO in the
source). -/
structure AppState where
  proverAddress : Nat
  minOptimisticTierFee : Nat
  minSgxTierFee : Nat
  minPseZkevmTierFee : Nat
  minSgxAndPseZkevmTierFee : Nat
  maxExpiry : Nat
  maxSlippage : Nat
  maxProposedIn : Nat
  livenessBond : Nat
  isGuardian : Bool
deriving DecidableEq, Repr

/-- `struct ProposeBlockResponse` from `assignment.rs`. -/
structure ProposeBlockResponse where
  signedPayload : List Nat
  prover : Nat
  maxBlockId : Nat
  maxProposedIn : Nat
deriving DecidableEq, Repr

/-- `type ApiError = (StatusCode, String)` from `lib.rs`. -/
abbrev ApiError := Nat × String

/-- The `match tier.tier { ... _ => 0 }` minimum-fee lookup from
`assignment.rs` lines 120-126, with the value of the fallback arm made a
parameter `d` (the source uses `0`). The four named arms cover
`Optimistic`, `Sgx`, `PseZkevm` and `SgxAndPseZkevm`, so the only variant
the `_` arm can match is `Guardian`. -/
def minFeeOr (d : Nat) (st : AppState) : Tier → Nat
  | .optimistic => st.minOptimisticTierFee
  | .sgx => st.minSgxTierFee
  | .pseZkevm => st.minPseZkevmTierFee
  | .sgxAndPseZkevm => st.minSgxAndPseZkevmTierFee
  | .guardian => d

/-- The `for tier in req.tier_fees { ... }` loop from `assignment.rs` lines
115-144, with the fallback value of the minimum-fee lookup as a parameter:
Guardian entries are skipped (`continue`), and the first non-Guardian entry
whose fee is strictly below its configured minimum short-circuits with the
`proof fee too low` error. -/
def checkTierFeesOr (d : Nat) (st : AppState) : List TierFee → Option ApiError
  | [] => none
  | tf :: rest =>
    if tf.tier = Tier.guardian then checkTierFeesOr d st rest
    else if tf.fee < minFeeOr d st tf.tier then some (422, "proof fee too low")
    else checkTierFeesOr d st rest

/-- The tier-fee loop exactly as in the source (fallback value `0`). -/
def checkTierFees : AppState → List TierFee → Option ApiError :=
  checkTierFeesOr 0

/-- The success value built at `assignment.rs` lines 172-177: the source fills
every field with a stub (`signed_payload: vec![]`, `prover: H160::zero()`,
`max_block_id: 0`, `max_proposed_in: 0`); payload encoding and signing are
unimplemented TODOs. -/
def stubResponse : ProposeBlockResponse :=
  { signedPayload := [], prover := 0, maxBlockId := 0, maxProposedIn := 0 }

/-- The handler `create_assignment` from `assignment.rs` lines 79-178.
`nowMillis` stands for `Utc::now().timestamp_millis()`; the source compares
`req.expiry > (now + max_expiry ms).timestamp_millis()`, i.e.
`req.expiry > nowMillis + st.maxExpiry`. -/
def create_assignment (st : AppState) (nowMillis : Nat)
    (req : CreateAssignmentRequestBody) : Except ApiError ProposeBlockResponse :=
  if req.txListHash = 0 then
    Except.error (422, "invalid txList hash")
  else if req.feeToken ≠ 0 then
    Except.error (422, "only receive ETH")
  else
    match checkTierFees st req.tierFees with
    | some e => Except.error e
    | none =>
      if req.expiry > nowMillis + st.maxExpiry then
        Except.error (422, "expiry too long")
      else
        Except.ok stubResponse

/-- Boolean form of "this tier fee fails the minimum-fee check" (tier is not
Guardian and the offered fee is strictly below the configured minimum), with
the fallback value as a parameter. -/
def lowFeeOr (d : Nat) (st : AppState) (tf : TierFee) : Bool :=
  tf.tier != Tier.guardian && decide (tf.fee < minFeeOr d st tf.tier)

/-- The spec's Policy Evaluator, written from the spec's words (section 4.1):
the four checks in the fixed order 1. `txListHash` non-zero, 2. `feeToken`
zero, 3. every non-Guardian tier fee at or above its configured minimum,
4. `expiry <= now + maxExpiryMillis`; the first failure short-circuits and
determines the rejection reason. -/
def evaluateOrdered (st : AppState) (nowMillis : Nat)
    (req : CreateAssignmentRequestBody) : Option ApiError :=
  if req.txListHash = 0 then some (422, "invalid txList hash")
  else if req.feeToken ≠ 0 then some (422, "only receive ETH")
  else if req.tierFees.any (lowFeeOr 0 st) then some (422, "proof fee too low")
  else if req.expiry > nowMillis + st.maxExpiry then some (422, "expiry too long")
  else none

/-- Interpret the evaluator's verdict as the handler's HTTP-level result. -/
def toResult (v : Option ApiError) : Except ApiError ProposeBlockResponse :=
  match v with
  | some e => Except.error e
  | none => Except.ok stubResponse

/-- The tier-fee loop rejects exactly when some entry fails the check, and the
error it produces is always `(422, "proof fee too low")`. -/
theorem checkTierFeesOr_eq (d : Nat) (st : AppState) (fees : List TierFee) :
    checkTierFeesOr d st fees =
      if fees.any (lowFeeOr d st) then some (422, "proof fee too low") else none := by
  induction fees with
  | nil => rfl
  | cons tf rest ih =>
    by_cases hg : tf.tier = Tier.guardian
    · have hl : lowFeeOr d st tf = false := by
        simp [lowFeeOr, hg]
      simp [checkTierFeesOr, hg, List.any_cons, hl, ih]
    · by_cases hf : tf.fee < minFeeOr d st tf.tier
      · have hl : lowFeeOr d st tf = true := by
          simp [lowFeeOr, hg, hf]
        simp [checkTierFeesOr, hg, hf, List.any_cons, hl]
      · have hl : lowFeeOr d st tf = false := by
          simp [lowFeeOr, hg, hf]
        simp [checkTierFeesOr, hg, hf, List.any_cons, hl, ih]

/-- A failing tier fee in boolean form corresponds to the propositional form:
tier not Guardian and offered fee strictly below the configured minimum. -/
theorem lowFeeOr_eq_true (d : Nat) (st : AppState) (tf : TierFee) :
    lowFeeOr d st tf = true ↔
      tf.tier ≠ Tier.guardian ∧ tf.fee < minFeeOr d st tf.tier := by
  simp [lowFeeOr]

/-- C2: the handler applies the four validation checks in the fixed order
(1) txListHash non-zero, (2) feeToken zero, (3) per-tier minimum fee,
(4) expiry bound, and the first failing check determines the rejection
reason: for every state, clock and request, `create_assignment` returns
exactly the verdict of the spec's ordered first-failure evaluator. -/
theorem create_assignment_eq_ordered_evaluation (st : AppState) (nowMillis : Nat)
    (req : CreateAssignmentRequestBody) :
    create_assignment st nowMillis req = toResult (evaluateOrdered st nowMillis req) := by
  unfold create_assignment evaluateOrdered toResult checkTierFees
  rw [checkTierFeesOr_eq]
  by_cases h1 : req.txListHash = 0
  · simp [h1]
  · by_cases h2 : req.feeToken = 0
    · by_cases h3 : req.tierFees.any (lowFeeOr 0 st)
      · simp [h1, h2, h3]
      · by_cases h4 : req.expiry > nowMillis + st.maxExpiry
        · simp [h1, h2, h3, h4]
        · simp [h1, h2, h3, h4]
    · simp [h1, h2]

/-- C3: with the txListHash and feeToken checks passing, the handler rejects
with `proof fee too low` exactly when some tier fee of the request has a
non-Guardian tier and an offered fee strictly below that tier's configured
minimum; in particular a fee equal to the minimum never triggers the
rejection, and Guardian-tier fees never trigger it regardless of value. -/
theorem proof_fee_too_low_iff (st : AppState) (nowMillis : Nat)
    (req : CreateAssignmentRequestBody)
    (h1 : req.txListHash ≠ 0) (h2 : req.feeToken = 0) :
    create_assignment st nowMillis req = Except.error (422, "proof fee too low") ↔
      ∃ tf ∈ req.tierFees, tf.tier ≠ Tier.guardian ∧ tf.fee < minFeeOr 0 st tf.tier := by
  unfold create_assignment checkTierFees
  rw [checkTierFeesOr_eq]
  by_cases h3 : req.tierFees.any (lowFeeOr 0 st)
  · constructor
    · intro _
      rw [List.any_eq_true] at h3
      obtain ⟨tf, htf, hp⟩ := h3
      exact ⟨tf, htf, (lowFeeOr_eq_true 0 st tf).mp hp⟩
    · intro _
      simp [h1, h2, h3]
  · constructor
    · intro hres
      exfalso
      by_cases h4 : req.expiry > nowMillis + st.maxExpiry
      · simp [h1, h2, h3, h4] at hres
      · simp [h1, h2, h3, h4, stubResponse] at hres
    · intro ⟨tf, htf, hne, hlt⟩
      exfalso
      rw [List.any_eq_true] at h3
      exact h3 ⟨tf, htf, (lowFeeOr_eq_true 0 st tf).mpr ⟨hne, hlt⟩⟩

/-- A concrete prover policy: configured prover address `0x1`, tier minima
100/200/300/400, maximum expiry offset 5000 ms (scenario A of the spec uses
`minOptimisticTierFee = 100`). -/
def policyA : AppState :=
  { proverAddress := 1, minOptimisticTierFee := 100, minSgxTierFee := 200,
    minPseZkevmTierFee := 300, minSgxAndPseZkevmTierFee := 400, maxExpiry := 5000,
    maxSlippage := 0, maxProposedIn := 0, livenessBond := 0, isGuardian := false }

/-- The clock used with the concrete fixtures: `now = 1000000` ms. -/
def nowA : Nat := 1000000

/-- Scenario A request of the spec: zero fee token, one Optimistic tier fee of
200, expiry `now + 1000`, non-zero txListHash `0xabc`. -/
def requestA : CreateAssignmentRequestBody :=
  { feeToken := 0, tierFees := [{ tier := Tier.optimistic, fee := 200 }],
    expiry := 1001000, txListHash := 2748 }

/-- Scenario B request of the spec: as scenario A but the offered Optimistic
fee is 50, below the configured minimum of 100. -/
def requestB : CreateAssignmentRequestBody :=
  { feeToken := 0, tierFees := [{ tier := Tier.optimistic, fee := 50 }],
    expiry := 1001000, txListHash := 2748 }

/-- As scenario A but with a different (still non-zero) txListHash `0xdef`. -/
def requestC : CreateAssignmentRequestBody :=
  { feeToken := 0, tierFees := [{ tier := Tier.optimistic, fee := 200 }],
    expiry := 1001000, txListHash := 3567 }

/-- Witness for C3 at a concrete input: a single Optimistic tier fee of 50
against a configured minimum of 100 is rejected as `proof fee too low`. -/
theorem proof_fee_too_low_iff_witness :
    create_assignment policyA nowA requestB = Except.error (422, "proof fee too low") := by
  have h := proof_fee_too_low_iff policyA nowA requestB (by decide) (by decide)
  exact h.mpr ⟨{ tier := Tier.optimistic, fee := 50 }, by simp [requestB], by decide, by decide⟩

/-- C4: with the earlier checks passing (non-zero txListHash, zero feeToken,
tier-fee loop raising no error), the handler rejects with `expiry too long`
exactly when `req.expiry > now + maxExpiry`, and a request whose expiry is
exactly `now + maxExpiry` is accepted (the boundary is inclusive). -/
theorem expiry_too_long_iff (st : AppState) (nowMillis : Nat)
    (req : CreateAssignmentRequestBody)
    (h1 : req.txListHash ≠ 0) (h2 : req.feeToken = 0)
    (h3 : checkTierFees st req.tierFees = none) :
    (create_assignment st nowMillis req = Except.error (422, "expiry too long") ↔
      req.expiry > nowMillis + st.maxExpiry) ∧
    (req.expiry = nowMillis + st.maxExpiry →
      create_assignment st nowMillis req = Except.ok stubResponse) := by
  constructor
  · by_cases h4 : nowMillis + st.maxExpiry < req.expiry
    · simp [create_assignment, h1, h2, h3, h4]
    · simp [create_assignment, h1, h2, h3, h4]
  · intro he
    have h4 : ¬ nowMillis + st.maxExpiry < req.expiry := by omega
    simp [create_assignment, h1, h2, h3, h4]

/-- Witness for C4 at a concrete input: a request whose expiry is exactly
`now + maxExpiry` (1000000 + 5000) is accepted. -/
theorem expiry_too_long_iff_witness :
    create_assignment policyA nowA
        { feeToken := 0, tierFees := [{ tier := Tier.optimistic, fee := 200 }],
          expiry := 1005000, txListHash := 2748 } =
      Except.ok stubResponse :=
  (expiry_too_long_iff policyA nowA
      { feeToken := 0, tierFees := [{ tier := Tier.optimistic, fee := 200 }],
        expiry := 1005000, txListHash := 2748 }
      (by decide) (by decide) (by decide)).2 (by decide)

/-- C5 counterexample: a request whose feeToken is non-zero but whose
txListHash is zero is rejected as `invalid txList hash`, not as
`only receive ETH` — so a non-zero feeToken does not yield the
`UnsupportedFeeToken` rejection regardless of the other field values. -/
theorem unsupported_fee_token_counterexample :
    (CreateAssignmentRequestBody.feeToken
        { feeToken := 1, tierFees := [], expiry := 0, txListHash := 0 } ≠ 0) ∧
    create_assignment policyA nowA
        { feeToken := 1, tierFees := [], expiry := 0, txListHash := 0 } =
      Except.error (422, "invalid txList hash") ∧
    create_assignment policyA nowA
        { feeToken := 1, tierFees := [], expiry := 0, txListHash := 0 } ≠
      Except.error (422, "only receive ETH") := by
  refine ⟨by decide, rfl, by simp [create_assignment]⟩

/-- C5 amended: every request whose feeToken is non-zero and whose txListHash
is non-zero (so the preceding check passes) is rejected as
`only receive ETH`, regardless of the remaining field values. -/
theorem unsupported_fee_token_of_nonzero_hash (st : AppState) (nowMillis : Nat)
    (req : CreateAssignmentRequestBody)
    (h1 : req.feeToken ≠ 0) (h2 : req.txListHash ≠ 0) :
    create_assignment st nowMillis req = Except.error (422, "only receive ETH") := by
  simp [create_assignment, h1, h2]

/-- Witness for the amended C5 at a concrete input. -/
theorem unsupported_fee_token_of_nonzero_hash_witness :
    create_assignment policyA nowA
        { feeToken := 7, tierFees := [], expiry := 0, txListHash := 2748 } =
      Except.error (422, "only receive ETH") :=
  unsupported_fee_token_of_nonzero_hash policyA nowA
    { feeToken := 7, tierFees := [], expiry := 0, txListHash := 2748 }
    (by decide) (by decide)

/-- C9: a request with an empty tierFees list that passes the txListHash,
feeToken and expiry checks is accepted: the tier-fee loop imposes no minimum
number of entries. -/
theorem empty_tier_fees_accepted (st : AppState) (nowMillis : Nat)
    (req : CreateAssignmentRequestBody)
    (h0 : req.tierFees = []) (h1 : req.txListHash ≠ 0) (h2 : req.feeToken = 0)
    (h3 : req.expiry ≤ nowMillis + st.maxExpiry) :
    create_assignment st nowMillis req = Except.ok stubResponse := by
  have h4 : ¬ nowMillis + st.maxExpiry < req.expiry := by omega
  simp [create_assignment, h0, h1, h2, h4, checkTierFees, checkTierFeesOr]

/-- Witness for C9 at a concrete input. -/
theorem empty_tier_fees_accepted_witness :
    create_assignment policyA nowA
        { feeToken := 0, tierFees := [], expiry := 1001000, txListHash := 2748 } =
      Except.ok stubResponse :=
  empty_tier_fees_accepted policyA nowA
    { feeToken := 0, tierFees := [], expiry := 1001000, txListHash := 2748 }
    (by decide) (by decide) (by decide) (by decide)

/-- A failing-fee test never depends on the fallback value of the minimum-fee
lookup: Guardian entries are filtered out by the `!=` test before the lookup
result matters, and every other variant hits one of the four named arms. -/
theorem lowFeeOr_fallback_irrelevant (d₁ d₂ : Nat) (st : AppState) (tf : TierFee) :
    lowFeeOr d₁ st tf = lowFeeOr d₂ st tf := by
  obtain ⟨t, f⟩ := tf
  cases t <;> simp [lowFeeOr, minFeeOr]

/-- C10: the `_ => 0` fallback arm of the minimum-fee lookup is unreachable:
the tier-fee loop's outcome is the same for every fallback value (Guardian,
the only variant the fallback arm can match, is skipped before the lookup),
and each of the four remaining variants maps to its own configured minimum. -/
theorem min_fee_fallback_unreachable (d₁ d₂ : Nat) (st : AppState)
    (fees : List TierFee) :
    checkTierFeesOr d₁ st fees = checkTierFeesOr d₂ st fees ∧
    minFeeOr d₁ st Tier.optimistic = st.minOptimisticTierFee ∧
    minFeeOr d₁ st Tier.sgx = st.minSgxTierFee ∧
    minFeeOr d₁ st Tier.pseZkevm = st.minPseZkevmTierFee ∧
    minFeeOr d₁ st Tier.sgxAndPseZkevm = st.minSgxAndPseZkevmTierFee := by
  have hfun : lowFeeOr d₁ st = lowFeeOr d₂ st :=
    funext (lowFeeOr_fallback_irrelevant d₁ d₂ st)
  refine ⟨?_, rfl, rfl, rfl, rfl⟩
  rw [checkTierFeesOr_eq, checkTierFeesOr_eq, hfun]

/-- C1 (code evaluated at the spec's scenario A): the request passes all four
validation checks and the handler returns a success, but the success value is
the stub built at `assignment.rs` 172-177 — its `signedPayload` is the empty
byte array and its `prover` is the zero address, not the configured prover
address `policyA.proverAddress = 1` (payload encoding and signing are
unimplemented TODOs in the source). -/
theorem scenario_a_returns_stub :
    create_assignment policyA nowA requestA = Except.ok stubResponse ∧
    stubResponse.signedPayload = [] ∧
    stubResponse.prover = 0 ∧
    policyA.proverAddress ≠ stubResponse.prover := by
  refine ⟨rfl, rfl, rfl, by decide⟩

/-- C6 (capacity handling evaluated on the code): the handler has no capacity
state and no capacity branch — for every state, clock and request it returns
either the stub success or a `422` validation error; no `503`-class
capacity-exhaustion rejection is ever produced. -/
theorem create_assignment_never_capacity_limited (st : AppState) (nowMillis : Nat)
    (req : CreateAssignmentRequestBody) :
    create_assignment st nowMillis req = Except.ok stubResponse ∨
    ∃ msg : String, create_assignment st nowMillis req = Except.error (422, msg) := by
  by_cases h1 : req.txListHash = 0
  · exact Or.inr ⟨"invalid txList hash", by simp [create_assignment, h1]⟩
  · by_cases h2 : req.feeToken = 0
    · by_cases h3 : req.tierFees.any (lowFeeOr 0 st)
      · exact Or.inr ⟨"proof fee too low",
          by simp [create_assignment, h1, h2, checkTierFees, checkTierFeesOr_eq, h3]⟩
      · by_cases h4 : nowMillis + st.maxExpiry < req.expiry
        · exact Or.inr ⟨"expiry too long",
            by simp [create_assignment, h1, h2, checkTierFees, checkTierFeesOr_eq, h3, h4]⟩
        · exact Or.inl
            (by simp [create_assignment, h1, h2, checkTierFees, checkTierFeesOr_eq, h3, h4])
    · exact Or.inr ⟨"only receive ETH", by simp [create_assignment, h1, h2]⟩

/-- C8 (encoder evaluated on the code): two accepted requests that differ in
their txListHash produce byte-identical responses — the payload bytes are the
constant empty vector (`assignment.rs` 173), so inputs differing in an
encoded field collide instead of yielding different output. -/
theorem signed_payload_collision :
    requestA.txListHash ≠ requestC.txListHash ∧
    create_assignment policyA nowA requestA = Except.ok stubResponse ∧
    create_assignment policyA nowA requestC = Except.ok stubResponse ∧
    create_assignment policyA nowA requestA = create_assignment policyA nowA requestC := by
  refine ⟨by decide, rfl, rfl, rfl⟩

/-- Modelled from the spec: the Capacity Guard is missing from the source —
`AppState.propose_concurrency_guard` (`lib.rs` 27) is a unit-typed
placeholder and the capacity check in `create_assignment` (`assignment.rs`
164) is an unimplemented TODO. Spec section 4.2: `tryAcquire` returns a slot
exactly when the current outstanding count is below the configured maximum,
incrementing the count; a configured maximum of 0 means unlimited capacity
(acquisition always succeeds, no bookkeeping). The result is the updated
outstanding count on success, `none` on `ProverAtCapacity`. -/
def tryAcquire (maxSlots count : Nat) : Option Nat :=
  if maxSlots = 0 then some count
  else if count < maxSlots then some (count + 1) else none

/-- Modelled from the spec: releasing a slot decrements the outstanding
count; double-release must not under-count (the count never goes below 0). -/
def releaseSlot (count : Nat) : Nat := count - 1

/-- One atomic operation on the Capacity Guard (spec sections 4.2 and 5: the
acquire/release pair is atomic, e.g. a mutex-protected counter, so an
interleaving of concurrent requests is an arbitrary finite sequence of these
operations). -/
inductive GuardOp where
  | acquire
  | release
deriving DecidableEq, Repr

/-- The outstanding count after one atomic guard operation: a failed
acquisition leaves the count unchanged. -/
def guardStep (maxSlots count : Nat) : GuardOp → Nat
  | GuardOp.acquire => (tryAcquire maxSlots count).getD count
  | GuardOp.release => releaseSlot count

/-- The outstanding count after an arbitrary interleaving of atomic guard
operations, starting from no slots held. -/
def runGuard (maxSlots : Nat) (ops : List GuardOp) : Nat :=
  ops.foldl (guardStep maxSlots) 0

/-- One atomic guard operation preserves the capacity bound. -/
theorem guardStep_le (maxSlots count : Nat) (op : GuardOp)
    (hm : 0 < maxSlots) (hc : count ≤ maxSlots) :
    guardStep maxSlots count op ≤ maxSlots := by
  cases op with
  | acquire =>
    by_cases h : count < maxSlots
    · simp [guardStep, tryAcquire, Nat.pos_iff_ne_zero.mp hm, h]
      omega
    · simp [guardStep, tryAcquire, Nat.pos_iff_ne_zero.mp hm, h]
      exact hc
  | release =>
    simp only [guardStep, releaseSlot]
    omega

/-- The capacity bound holds after any interleaving, from any in-bound
starting count. -/
theorem foldl_guardStep_le (maxSlots : Nat) (hm : 0 < maxSlots)
    (ops : List GuardOp) :
    ∀ count, count ≤ maxSlots → ops.foldl (guardStep maxSlots) count ≤ maxSlots := by
  induction ops with
  | nil => intro count hc; simpa using hc
  | cons op rest ih =>
    intro count hc
    simpa [List.foldl_cons] using ih _ (guardStep_le maxSlots count op hm hc)

/-- C7: with a configured ceiling `maxSlots > 0`, under any interleaving of
atomic guard operations the number of concurrently held slots never exceeds
the ceiling; and when only one slot remains, one acquisition succeeds
(filling the last slot) and a second acquisition serialized after it fails —
two acquisitions can never both succeed on one remaining slot. -/
theorem capacity_guard_bound (maxSlots : Nat) (hm : 0 < maxSlots) :
    (∀ ops : List GuardOp, runGuard maxSlots ops ≤ maxSlots) ∧
    (∀ count : Nat, count + 1 = maxSlots →
      tryAcquire maxSlots count = some maxSlots ∧
      tryAcquire maxSlots maxSlots = none) := by
  constructor
  · intro ops
    exact foldl_guardStep_le maxSlots hm ops 0 (Nat.zero_le _)
  · intro count hcount
    constructor
    · have h : count < maxSlots := by omega
      simp [tryAcquire, Nat.pos_iff_ne_zero.mp hm, h]
      omega
    · simp [tryAcquire, Nat.pos_iff_ne_zero.mp hm]

/-- Witness for C7 at a concrete input: with a ceiling of 1, the interleaving
acquire-acquire-release-acquire never holds more than one slot. -/
theorem capacity_guard_bound_witness :
    runGuard 1 [GuardOp.acquire, GuardOp.acquire, GuardOp.release, GuardOp.acquire] ≤ 1 :=
  (capacity_guard_bound 1 (by decide)).1
    [GuardOp.acquire, GuardOp.acquire, GuardOp.release, GuardOp.acquire]

end ProverApi
